import Mathlib

/-!
Verification of the "Projector" provisioning workflow and keyword-filtering
engine (`mcp_projector.py`): a shallow embedding of the registry filter, the
folder provisioner, the README templater and the provisioning orchestrator,
together with theorems settling the specified properties.

Modelling conventions:
* Python strings are Lean `String`s; `str.lower()` / `str.upper()` are
  `pyLower` / `pyUpper` (ASCII case folding, character by character),
  and no-argument `str.split()` is `pySplitWs`.
* The file system is an explicit `FS` state (existing directories plus
  files with their contents) threaded through each operation.
* OS calls that the source wraps in `try/except` (`os.makedirs`, the file
  write, `subprocess.Popen`) are given an explicit error oracle
  `Option String` (`none` = the call succeeds, `some e` = it raises with
  message `e`), so every embedded function is total, mirroring the fact
  that the source catches these exceptions and returns structured results.
* The registry source (`open` + `json.load`) is an inductive oracle:
  missing file, malformed JSON, other read failure, or a parsed project
  list.
* The wall-clock date used for the folder name is an explicit `date`
  argument (the `YYYYMMDD` string produced by `strftime`).
-/

namespace Projector

/-- A project record from the registry JSON: `id`, `title`, `keywords`
(`project.get('keywords', [])` defaults to `[]`, `get('title','')` to `""`). -/
structure Project where
  id : String
  title : String
  keywords : List String
deriving DecidableEq

/-- Outcome of reading and parsing the registry JSON file: the
`try/except` in `load_and_filter_projects` distinguishes a missing file
(`FileNotFoundError`), malformed JSON (`json.JSONDecodeError`), any other
exception, and a successful parse yielding the `projects` list. -/
inductive RegistrySource where
  | missing : RegistrySource
  | malformed : String → RegistrySource
  | readError : String → RegistrySource
  | ok : List Project → RegistrySource

/-- Boolean test that `n` matches at the head of `h` (character-wise). -/
def charsPrefixOf : List Char → List Char → Bool
  | [], _ => true
  | _ :: _, [] => false
  | a :: as, b :: bs => a == b && charsPrefixOf as bs

/-- Boolean substring containment on character lists: does `needle` occur
contiguously inside `haystack`? -/
def charsContains : List Char → List Char → Bool
  | [], needle => needle.isEmpty
  | c :: rest, needle => charsPrefixOf needle (c :: rest) || charsContains rest needle

/-- Python's `needle in haystack` on strings: substring containment. -/
def pyInStr (needle haystack : String) : Bool :=
  charsContains haystack.data needle.data

/-- The mathematical substring relation: `needle` occurs contiguously in
`haystack`. -/
def SubstrOf (needle haystack : String) : Prop :=
  ∃ pre post : List Char, haystack.data = pre ++ needle.data ++ post

/-- Python's `str.lower()` (ASCII case folding), character by character. -/
def pyLower (s : String) : String :=
  ⟨s.data.map Char.toLower⟩

/-- Python's `str.upper()` (ASCII case folding), character by character. -/
def pyUpper (s : String) : String :=
  ⟨s.data.map Char.toUpper⟩

/-- Split a character list on whitespace, Python `str.split()` style:
maximal non-whitespace runs, empty pieces dropped. `acc` is the current
word accumulated in reverse. -/
def splitWsAux : List Char → List Char → List String
  | [], [] => []
  | [], acc => [⟨acc.reverse⟩]
  | c :: rest, acc =>
    if c.isWhitespace then
      match acc with
      | [] => splitWsAux rest []
      | _ => ⟨acc.reverse⟩ :: splitWsAux rest []
    else splitWsAux rest (c :: acc)

/-- Python's no-argument `str.split()`: whitespace-separated words. -/
def pySplitWs (s : String) : List String :=
  splitWsAux s.data []

/-- `all_searchable_terms` for a project: its lowercased keywords together
with the lowercased whitespace-split words of its title
(`project.get('title','').lower().split()`; Python's no-argument `split`
drops empty pieces). -/
def searchableTerms (p : Project) : List String :=
  p.keywords.map pyLower ++ pySplitWs (pyLower p.title)

/-- The configured filter strategy:
`os.getenv("FILTER_STRATEGY", "AND").upper()`. -/
def filter_strategy (env : Option String) : String :=
  pyUpper (env.getD "AND")

/-- `load_and_filter_projects`: load the registry (all read/parse failures
degrade to `[]`), return everything when the keyword list is empty, and
otherwise keep a project when all (strategy `"AND"`) or any (any other
strategy) lowercased filter keyword is a substring of some searchable
term. -/
def load_and_filter_projects (strategy : String) (source : RegistrySource)
    (filter_keywords : List String) : List Project :=
  match source with
  | .missing => []
  | .malformed _ => []
  | .readError _ => []
  | .ok projects =>
    if filter_keywords.isEmpty then projects
    else
      let filter_keywords_lower := filter_keywords.map pyLower
      projects.filter (fun project =>
        let all_searchable_terms := searchableTerms project
        if strategy == "AND" then
          filter_keywords_lower.all
            (fun fkw => all_searchable_terms.any (fun term => pyInStr fkw term))
        else
          filter_keywords_lower.any
            (fun fkw => all_searchable_terms.any (fun term => pyInStr fkw term)))

/-- A filter keyword matches a project: its lowercased form is a substring
of at least one term of the project's searchable term set. -/
def KwMatches (p : Project) (kw : String) : Prop :=
  ∃ t ∈ searchableTerms p, SubstrOf (pyLower kw) t

/-- The file-system state: the set of existing directory paths and the
existing regular files with their contents. -/
structure FS where
  dirs : List String
  files : List (String × String)
deriving DecidableEq

/-- `os.path.exists p`: `p` is an existing directory or an existing file. -/
def pathExists (fs : FS) (p : String) : Bool :=
  fs.dirs.contains p || fs.files.any (fun f => f.1 == p)

/-- `os.path.isdir p`. -/
def isDir (fs : FS) (p : String) : Bool :=
  fs.dirs.contains p

/-- `os.path.join a b` for the shapes used here. -/
def pathJoin (a b : String) : String :=
  a ++ "/" ++ b

/-- Result dictionary of `create_project_folder`. -/
structure FolderResult where
  status : String
  message : String
  folder_path : Option String
deriving DecidableEq

/-- Result dictionary of `create_readme_file`. -/
structure ReadmeResult where
  status : String
  message : String
  file_path : Option String
deriving DecidableEq

/-- Result dictionary of `create_project_with_readme`; `open_status = none`
models the `open_status` key being absent from the returned dictionary. -/
structure ProvisionResult where
  status : String
  message : String
  folder_path : Option String
  readme_path : Option String
  open_status : Option String
deriving DecidableEq

/-- Which collaborators the orchestrator actually invoked during a call:
the folder provisioner, the README templater, and the `subprocess.Popen`
reveal action. -/
structure Trace where
  folderCalled : Bool
  readmeCalled : Bool
  revealAttempted : Bool
deriving DecidableEq

/-- `create_project_folder`: fail on an unset/empty or non-existing root
(`if not project_folders_root`, `os.path.exists`), otherwise target
`root/p<date>a`; report `exists` without mutation when the path already
exists, and otherwise `os.makedirs` it (`mkdirErr` is the `OSError`
oracle of the `try/except`). -/
def create_project_folder (root : Option String) (date : String)
    (mkdirErr : Option String) (fs : FS) : FolderResult × FS :=
  let rootStr := root.getD ""
  if rootStr = "" then
    ({ status := "error",
       message := "PROJECT_FOLDERS_ROOT environment variable not set",
       folder_path := none }, fs)
  else if pathExists fs rootStr = false then
    ({ status := "error",
       message := "PROJECT_FOLDERS_ROOT directory does not exist: " ++ rootStr,
       folder_path := none }, fs)
  else
    let folder_name := "p" ++ date ++ "a"
    let folder_path := pathJoin rootStr folder_name
    if pathExists fs folder_path then
      ({ status := "exists",
         message := "Folder already exists: " ++ folder_name,
         folder_path := some folder_path }, fs)
    else
      match mkdirErr with
      | some e =>
        ({ status := "error",
           message := "Failed to create folder " ++ folder_name ++ ": " ++ e,
           folder_path := none }, fs)
      | none =>
        ({ status := "created",
           message := "Successfully created folder: " ++ folder_name,
           folder_path := some folder_path },
         { fs with dirs := folder_path :: fs.dirs })

/-- The README template written by `create_readme_file`:
`f"# {title}\n\n> **Keywords**: {formatted_keywords}\n\n"` with
`formatted_keywords = " ".join(f"#{kw}" for kw in keywords) if keywords
else ""`. -/
def readmeContent (title : String) (keywords : List String) : String :=
  let formatted_keywords :=
    if keywords.isEmpty then ""
    else String.intercalate " " (keywords.map (fun kw => "#" ++ kw))
  "# " ++ title ++ "\n\n> **Keywords**: " ++ formatted_keywords ++ "\n\n"

/-- `create_readme_file`: validate the folder (non-empty, existing,
a directory), report `exists` without mutation when `README.md` is already
present, and otherwise write the templated file (`writeErr` is the
`OSError` oracle of the `try/except` around the write). -/
def create_readme_file (writeErr : Option String) (folder_path : String)
    (title : String) (keywords : List String) (fs : FS) : ReadmeResult × FS :=
  if folder_path = "" then
    ({ status := "error", message := "Folder path is required",
       file_path := none }, fs)
  else if pathExists fs folder_path = false then
    ({ status := "error",
       message := "Folder does not exist: " ++ folder_path,
       file_path := none }, fs)
  else if isDir fs folder_path = false then
    ({ status := "error",
       message := "Path is not a directory: " ++ folder_path,
       file_path := none }, fs)
  else
    let readme_path := pathJoin folder_path "README.md"
    if pathExists fs readme_path then
      ({ status := "exists",
         message := "README.md already exists in " ++ folder_path,
         file_path := some readme_path }, fs)
    else
      match writeErr with
      | some e =>
        ({ status := "error",
           message := "Failed to create README.md: " ++ e,
           file_path := none }, fs)
      | none =>
        ({ status := "created",
           message := "Successfully created README.md in " ++ folder_path,
           file_path := some readme_path },
         { fs with files := (readme_path, readmeContent title keywords) :: fs.files })

/-- `create_project_with_readme`: reject an empty title, create the folder
(short-circuit on its `error`), create the README (on its `error` return
`partial` immediately), then attempt the Finder reveal (`openErr` is the
exception oracle of the `try/except` around `subprocess.Popen`; its
failure only sets `open_status` to `not_opened`), and derive the combined
status from the two step statuses. The returned `Trace` records which
collaborators were invoked along the taken control path. -/
def create_project_with_readme (root : Option String) (date : String)
    (mkdirErr writeErr openErr : Option String)
    (title : String) (keywords : List String) (fs : FS) :
    ProvisionResult × FS × Trace :=
  if title = "" then
    ({ status := "error", message := "Title is required",
       folder_path := none, readme_path := none, open_status := none },
     fs, ⟨false, false, false⟩)
  else
    let fr := create_project_folder root date mkdirErr fs
    if fr.1.status = "error" then
      ({ status := "error",
         message := "Failed to create project folder: " ++ fr.1.message,
         folder_path := none, readme_path := none, open_status := none },
       fr.2, ⟨true, false, false⟩)
    else
      let folder_path := fr.1.folder_path.getD ""
      let rr := create_readme_file writeErr folder_path title keywords fr.2
      if rr.1.status = "error" then
        ({ status := "partial",
           message := "Project folder created but README failed: " ++ rr.1.message,
           folder_path := some folder_path, readme_path := none,
           open_status := none },
         rr.2, ⟨true, true, false⟩)
      else
        let open_status := match openErr with
          | none => "opened"
          | some _ => "not_opened"
        let open_message := match openErr with
          | none => "and opened in Finder"
          | some e => "but failed to open in Finder: " ++ e
        let status :=
          if fr.1.status = "exists" then
            if rr.1.status = "exists" then "all_exist"
            else "folder_exists_readme_created"
          else
            if rr.1.status = "exists" then "folder_created_readme_exists"
            else "all_created"
        let message :=
          if fr.1.status = "exists" then
            if rr.1.status = "exists" then
              "Project folder and README already exist " ++ open_message
            else
              "Project folder already existed, README created " ++ open_message
          else
            if rr.1.status = "exists" then
              "Project folder created, README already existed " ++ open_message
            else
              "Project folder and README created successfully " ++ open_message
        ({ status := status, message := message,
           folder_path := some folder_path, readme_path := rr.1.file_path,
           open_status := some open_status },
         rr.2, ⟨true, true, true⟩)

/-! ### Substring bridge lemmas -/

theorem charsPrefixOf_iff : ∀ (n h : List Char),
    charsPrefixOf n h = true ↔ ∃ r, h = n ++ r
  | [], h => by simp [charsPrefixOf]
  | a :: as, [] => by simp [charsPrefixOf]
  | a :: as, b :: bs => by
    simp only [charsPrefixOf, Bool.and_eq_true, beq_iff_eq,
      charsPrefixOf_iff as bs, List.cons_append, List.cons.injEq]
    constructor
    · rintro ⟨rfl, r, rfl⟩
      exact ⟨r, rfl, rfl⟩
    · rintro ⟨r, h1, h2⟩
      exact ⟨h1.symm, r, h2⟩

theorem charsContains_iff : ∀ (h n : List Char),
    charsContains h n = true ↔ ∃ pre post, h = pre ++ n ++ post
  | [], n => by
    simp only [charsContains, List.isEmpty_iff]
    constructor
    · rintro rfl
      exact ⟨[], [], rfl⟩
    · rintro ⟨pre, post, hh⟩
      rcases List.append_eq_nil.mp (List.append_eq_nil.mp hh.symm).1 with ⟨-, h2⟩
      exact h2
  | c :: rest, n => by
    simp only [charsContains, Bool.or_eq_true, charsPrefixOf_iff,
      charsContains_iff rest n]
    constructor
    · rintro (⟨r, hr⟩ | ⟨pre, post, hh⟩)
      · exact ⟨[], r, by simpa using hr⟩
      · exact ⟨c :: pre, post, by simp [hh]⟩
    · rintro ⟨pre, post, hh⟩
      match pre, hh with
      | [], hh => exact Or.inl ⟨post, by simpa using hh⟩
      | c2 :: pre2, hh =>
        rcases List.cons.injEq .. ▸ hh with ⟨-, h2⟩
        exact Or.inr ⟨pre2, post, h2⟩

theorem pyInStr_iff (needle haystack : String) :
    pyInStr needle haystack = true ↔ SubstrOf needle haystack :=
  charsContains_iff haystack.data needle.data

/-! ### Membership characterization of the filter -/

theorem mem_filter_AND (projects : List Project) (kws : List String)
    (p : Project) (hne : kws ≠ []) :
    p ∈ load_and_filter_projects "AND" (.ok projects) kws ↔
      p ∈ projects ∧ ∀ kw ∈ kws, KwMatches p kw := by
  have hkempty : kws.isEmpty = false := by
    cases kws with
    | nil => exact absurd rfl hne
    | cons a l => rfl
  simp only [load_and_filter_projects, hkempty, Bool.false_eq_true,
    if_false, List.mem_filter]
  refine and_congr_right fun _ => ?_
  simp only [beq_self_eq_true, if_true, List.all_eq_true, List.mem_map,
    List.any_eq_true, forall_exists_index, and_imp]
  constructor
  · intro hall kw hkw
    rcases hall (pyLower kw) kw hkw rfl with ⟨t, ht, hin⟩
    exact ⟨t, ht, (pyInStr_iff _ _).mp hin⟩
  · rintro hall fkw kw hkw rfl
    rcases hall kw hkw with ⟨t, ht, hsub⟩
    exact ⟨t, ht, (pyInStr_iff _ _).mpr hsub⟩

theorem mem_filter_other (s : String) (hs : s ≠ "AND")
    (projects : List Project) (kws : List String)
    (p : Project) (hne : kws ≠ []) :
    p ∈ load_and_filter_projects s (.ok projects) kws ↔
      p ∈ projects ∧ ∃ kw ∈ kws, KwMatches p kw := by
  have hkempty : kws.isEmpty = false := by
    cases kws with
    | nil => exact absurd rfl hne
    | cons a l => rfl
  have hb : (s == "AND") = false := by
    simpa [beq_iff_eq] using hs
  simp only [load_and_filter_projects, hkempty, Bool.false_eq_true,
    if_false, List.mem_filter, hb]
  refine and_congr_right fun _ => ?_
  simp only [List.any_eq_true, List.mem_map]
  constructor
  · rintro ⟨fkw, ⟨kw, hkw, rfl⟩, t, ht, hin⟩
    exact ⟨kw, hkw, t, ht, (pyInStr_iff _ _).mp hin⟩
  · rintro ⟨kw, hkw, t, ht, hsub⟩
    exact ⟨pyLower kw, ⟨kw, hkw, rfl⟩, t, ht, (pyInStr_iff _ _).mpr hsub⟩

/-- C1: for every registry and every non-empty filter keyword list, under
the ALL policy (strategy `"AND"`) a record is kept iff every filter
keyword, lowercased, is a substring of at least one term of the record's
searchable term set (lowercased keywords plus lowercased whitespace-split
title words); under the ANY policy (strategy `"OR"`) iff at least one
filter keyword is such a substring. Matching is case-insensitive and
substring-based. -/
theorem C1_filter_policy_semantics (projects : List Project)
    (kws : List String) (p : Project) (hne : kws ≠ []) :
    (p ∈ load_and_filter_projects "AND" (.ok projects) kws ↔
      p ∈ projects ∧ ∀ kw ∈ kws, KwMatches p kw) ∧
    (p ∈ load_and_filter_projects "OR" (.ok projects) kws ↔
      p ∈ projects ∧ ∃ kw ∈ kws, KwMatches p kw) :=
  ⟨mem_filter_AND projects kws p hne,
   mem_filter_other "OR" (by decide) projects kws p hne⟩

/-- Witness for C1 at the spec's scenario registry and the query
`["go"]`. -/
theorem C1_filter_policy_semantics_witness :
    ((Project.mk "p1" "Go Proxy" ["networking", "go"]) ∈
        load_and_filter_projects "AND"
          (.ok [Project.mk "p1" "Go Proxy" ["networking", "go"],
                Project.mk "p2" "Rust Cache" ["storage"]]) ["go"] ↔
      (Project.mk "p1" "Go Proxy" ["networking", "go"]) ∈
          [Project.mk "p1" "Go Proxy" ["networking", "go"],
           Project.mk "p2" "Rust Cache" ["storage"]] ∧
        ∀ kw ∈ ["go"],
          KwMatches (Project.mk "p1" "Go Proxy" ["networking", "go"]) kw) ∧
    ((Project.mk "p1" "Go Proxy" ["networking", "go"]) ∈
        load_and_filter_projects "OR"
          (.ok [Project.mk "p1" "Go Proxy" ["networking", "go"],
                Project.mk "p2" "Rust Cache" ["storage"]]) ["go"] ↔
      (Project.mk "p1" "Go Proxy" ["networking", "go"]) ∈
          [Project.mk "p1" "Go Proxy" ["networking", "go"],
           Project.mk "p2" "Rust Cache" ["storage"]] ∧
        ∃ kw ∈ ["go"],
          KwMatches (Project.mk "p1" "Go Proxy" ["networking", "go"]) kw) :=
  C1_filter_policy_semantics
    [Project.mk "p1" "Go Proxy" ["networking", "go"],
     Project.mk "p2" "Rust Cache" ["storage"]]
    ["go"] (Project.mk "p1" "Go Proxy" ["networking", "go"]) (by decide)

/-- C2: filtering with an empty keyword list returns the registry
unchanged, and for every keyword list the output is a sublist
(subsequence in original order, no reordering or duplication) of the
registry. -/
theorem C2_order_preserved (strategy : String) (projects : List Project)
    (kws : List String) :
    load_and_filter_projects strategy (.ok projects) [] = projects ∧
    List.Sublist (load_and_filter_projects strategy (.ok projects) kws)
      projects := by
  refine ⟨rfl, ?_⟩
  cases kws with
  | nil => exact List.Sublist.refl projects
  | cons k ks =>
    simp only [load_and_filter_projects, List.isEmpty_cons,
      Bool.false_eq_true, if_false]
    exact List.filter_sublist projects

/-- C9: a missing registry file or malformed/unreadable registry content
degrades to the empty project list; the embedded operation is total
(returns a structured value on every oracle outcome), mirroring the
source's catch-all exception handling. -/
theorem C9_registry_failures_degrade (strategy : String) (kws : List String)
    (e1 e2 : String) :
    load_and_filter_projects strategy .missing kws = [] ∧
    load_and_filter_projects strategy (.malformed e1) kws = [] ∧
    load_and_filter_projects strategy (.readError e2) kws = [] :=
  ⟨rfl, rfl, rfl⟩

/-- C10: the configured strategy value is not validated: the unset default
is `"AND"` (ALL semantics), a value whose uppercased form is exactly
`"AND"` selects ALL semantics, and every other value (e.g. `"OR"` or an
arbitrary string) selects ANY semantics. -/
theorem C10_strategy_not_validated (v : String) (projects : List Project)
    (kws : List String) (p : Project) (hne : kws ≠ []) :
    filter_strategy none = "AND" ∧
    (pyUpper v = "AND" →
      (p ∈ load_and_filter_projects (filter_strategy (some v)) (.ok projects) kws ↔
        p ∈ projects ∧ ∀ kw ∈ kws, KwMatches p kw)) ∧
    (pyUpper v ≠ "AND" →
      (p ∈ load_and_filter_projects (filter_strategy (some v)) (.ok projects) kws ↔
        p ∈ projects ∧ ∃ kw ∈ kws, KwMatches p kw)) := by
  refine ⟨by decide, fun h => ?_, fun h => ?_⟩
  · rw [show filter_strategy (some v) = pyUpper v from rfl, h]
    exact mem_filter_AND projects kws p hne
  · rw [show filter_strategy (some v) = pyUpper v from rfl]
    exact mem_filter_other (pyUpper v) h projects kws p hne

/-- Witness for C10 at the configured value `"or"`. -/
theorem C10_strategy_not_validated_witness :
    filter_strategy none = "AND" ∧
    (pyUpper "or" = "AND" →
      ((Project.mk "i" "t" []) ∈
          load_and_filter_projects (filter_strategy (some "or")) (.ok []) ["x"] ↔
        (Project.mk "i" "t" []) ∈ ([] : List Project) ∧
          ∀ kw ∈ ["x"], KwMatches (Project.mk "i" "t" []) kw)) ∧
    (pyUpper "or" ≠ "AND" →
      ((Project.mk "i" "t" []) ∈
          load_and_filter_projects (filter_strategy (some "or")) (.ok []) ["x"] ↔
        (Project.mk "i" "t" []) ∈ ([] : List Project) ∧
          ∃ kw ∈ ["x"], KwMatches (Project.mk "i" "t" []) kw)) :=
  C10_strategy_not_validated "or" [] ["x"] (Project.mk "i" "t" []) (by decide)

/-! ### File-system helper lemmas -/

theorem pathExists_addDir (fs : FS) (d p : String)
    (h : pathExists fs p = true) :
    pathExists { fs with dirs := d :: fs.dirs } p = true := by
  simp only [pathExists, List.contains_cons, Bool.or_eq_true] at h ⊢
  tauto

theorem pathExists_addFile (fs : FS) (q : String × String) (p : String)
    (h : pathExists fs p = true) :
    pathExists { fs with files := q :: fs.files } p = true := by
  simp only [pathExists, List.any_cons, Bool.or_eq_true] at h ⊢
  tauto

theorem pathExists_of_isDir (fs : FS) (p : String) (h : isDir fs p = true) :
    pathExists fs p = true := by
  simp only [isDir] at h
  simp only [pathExists, h, Bool.true_or]

/-! ### Branch characterizations of the provisioning steps -/

theorem create_project_folder_created (root : Option String) (date : String)
    (e : Option String) (fs : FS)
    (h : (create_project_folder root date e fs).1.status = "created") :
    root.getD "" ≠ "" ∧
    pathExists fs (root.getD "") = true ∧
    pathExists fs (pathJoin (root.getD "") ("p" ++ date ++ "a")) = false ∧
    e = none ∧
    create_project_folder root date e fs =
      ({ status := "created",
         message := "Successfully created folder: " ++ ("p" ++ date ++ "a"),
         folder_path := some (pathJoin (root.getD "") ("p" ++ date ++ "a")) },
       { fs with dirs := pathJoin (root.getD "") ("p" ++ date ++ "a") :: fs.dirs }) := by
  cases e with
  | some msg =>
    simp only [create_project_folder] at h
    split at h
    · simp at h
    · split at h
      · simp at h
      · split at h <;> simp at h
  | none =>
    simp only [create_project_folder] at h ⊢
    split at h
    · simp at h
    · split at h
      · simp at h
      · split at h
        · simp at h
        · rename_i h1 h2 h3
          refine ⟨h1, eq_true_of_ne_false h2, Bool.eq_false_iff.mpr h3, trivial, ?_⟩
          simp [h1, h2, h3]

theorem create_project_folder_exists_spec (root : Option String)
    (date : String) (e : Option String) (fs : FS)
    (h1 : root.getD "" ≠ "")
    (h2 : pathExists fs (root.getD "") = true)
    (h3 : pathExists fs (pathJoin (root.getD "") ("p" ++ date ++ "a")) = true) :
    create_project_folder root date e fs =
      ({ status := "exists",
         message := "Folder already exists: " ++ ("p" ++ date ++ "a"),
         folder_path := some (pathJoin (root.getD "") ("p" ++ date ++ "a")) },
       fs) := by
  simp [create_project_folder, h1, h2, h3]

theorem create_readme_file_created (we : Option String) (fp title : String)
    (kws : List String) (fs : FS)
    (h : (create_readme_file we fp title kws fs).1.status = "created") :
    fp ≠ "" ∧ pathExists fs fp = true ∧ isDir fs fp = true ∧
    pathExists fs (pathJoin fp "README.md") = false ∧ we = none ∧
    create_readme_file we fp title kws fs =
      ({ status := "created",
         message := "Successfully created README.md in " ++ fp,
         file_path := some (pathJoin fp "README.md") },
       { fs with
          files := (pathJoin fp "README.md", readmeContent title kws) :: fs.files }) := by
  cases we with
  | some msg =>
    simp only [create_readme_file] at h
    split at h
    · simp at h
    · split at h
      · simp at h
      · split at h
        · simp at h
        · split at h <;> simp at h
  | none =>
    simp only [create_readme_file] at h ⊢
    split at h
    · simp at h
    · split at h
      · simp at h
      · split at h
        · simp at h
        · split at h
          · simp at h
          · rename_i h1 h2 h3 h4
            refine ⟨h1, eq_true_of_ne_false h2, eq_true_of_ne_false h3,
              Bool.eq_false_iff.mpr h4, trivial, ?_⟩
            simp [h1, h2, h3, h4]

theorem create_readme_file_exists_spec (we : Option String)
    (fp title : String) (kws : List String) (fs : FS)
    (h1 : fp ≠ "") (h2 : pathExists fs fp = true) (h3 : isDir fs fp = true)
    (h4 : pathExists fs (pathJoin fp "README.md") = true) :
    create_readme_file we fp title kws fs =
      ({ status := "exists",
         message := "README.md already exists in " ++ fp,
         file_path := some (pathJoin fp "README.md") }, fs) := by
  simp [create_readme_file, h1, h2, h3, h4]

/-! ### Orchestrator claims -/

/-- C3: the orchestrator rejects an empty title with overall status
`error`, both paths absent, the file system unchanged, and none of the
folder provisioner, README templater or reveal action invoked. -/
theorem C3_empty_title_rejected (root : Option String) (date : String)
    (mkdirErr writeErr openErr : Option String) (kws : List String)
    (fs : FS) :
    create_project_with_readme root date mkdirErr writeErr openErr "" kws fs =
      ({ status := "error", message := "Title is required",
         folder_path := none, readme_path := none, open_status := none },
       fs, ⟨false, false, false⟩) := rfl

/-- C4: if the folder provisioner returns an error outcome, the
orchestrator returns overall status `error` with both paths `none`, and
the README templater (and the reveal action) is never invoked. -/
theorem C4_folder_error_short_circuits (root : Option String) (date : String)
    (mkdirErr writeErr openErr : Option String) (title : String)
    (kws : List String) (fs : FS) (htitle : title ≠ "")
    (herr : (create_project_folder root date mkdirErr fs).1.status = "error") :
    (create_project_with_readme root date mkdirErr writeErr openErr title kws fs).1.status = "error" ∧
    (create_project_with_readme root date mkdirErr writeErr openErr title kws fs).1.folder_path = none ∧
    (create_project_with_readme root date mkdirErr writeErr openErr title kws fs).1.readme_path = none ∧
    (create_project_with_readme root date mkdirErr writeErr openErr title kws fs).2.2.readmeCalled = false ∧
    (create_project_with_readme root date mkdirErr writeErr openErr title kws fs).2.2.revealAttempted = false := by
  simp only [create_project_with_readme, if_neg htitle, if_pos herr]
  exact ⟨trivial, trivial, trivial, trivial, trivial⟩

/-- Witness for C4: unset provisioning root. -/
theorem C4_folder_error_short_circuits_witness :
    (create_project_with_readme none "20250101" none none none "t" [] ⟨[], []⟩).1.status = "error" ∧
    (create_project_with_readme none "20250101" none none none "t" [] ⟨[], []⟩).1.folder_path = none ∧
    (create_project_with_readme none "20250101" none none none "t" [] ⟨[], []⟩).1.readme_path = none ∧
    (create_project_with_readme none "20250101" none none none "t" [] ⟨[], []⟩).2.2.readmeCalled = false ∧
    (create_project_with_readme none "20250101" none none none "t" [] ⟨[], []⟩).2.2.revealAttempted = false :=
  C4_folder_error_short_circuits none "20250101" none none none "t" [] ⟨[], []⟩
    (by decide) (by decide)

/-- C5 counterexample: with provisioning root `"r"` and a FILE named
`r/p20250101a` (so the folder step succeeds with `exists` but the README
step returns `error`: not a directory), the orchestrator returns
`partial` without ever attempting the reveal action — refuting the claim
that the reveal is attempted whenever the folder step succeeds,
regardless of the templating outcome. -/
theorem C5_counterexample :
    (create_project_folder (some "r") "20250101" none
        ⟨["r"], [("r/p20250101a", "x")]⟩).1.status = "exists" ∧
    (create_readme_file none "r/p20250101a" "T" []
        ⟨["r"], [("r/p20250101a", "x")]⟩).1.status = "error" ∧
    (create_project_with_readme (some "r") "20250101" none none none "T" []
        ⟨["r"], [("r/p20250101a", "x")]⟩).1.status = "partial" ∧
    (create_project_with_readme (some "r") "20250101" none none none "T" []
        ⟨["r"], [("r/p20250101a", "x")]⟩).2.2.revealAttempted = false := by
  decide

/-- C5 (amended): when the folder step succeeds and the README step does
not return `error`, the reveal action is attempted and its failure changes
neither the overall status, the two paths, nor the file system — it only
annotates `open_status` (`opened` vs `not_opened`); when the README step
returns `error` the orchestrator returns `partial` immediately without
attempting the reveal. -/
theorem C5_reveal_best_effort_amended (root : Option String) (date : String)
    (mkdirErr writeErr : Option String) (title : String) (kws : List String)
    (fs : FS) (htitle : title ≠ "")
    (hfolder : (create_project_folder root date mkdirErr fs).1.status ≠ "error") :
    (∀ openErr : Option String,
      (create_readme_file writeErr
          ((create_project_folder root date mkdirErr fs).1.folder_path.getD "")
          title kws (create_project_folder root date mkdirErr fs).2).1.status ≠ "error" →
      (create_project_with_readme root date mkdirErr writeErr openErr title kws fs).2.2.revealAttempted = true) ∧
    (∀ openErr : Option String,
      (create_readme_file writeErr
          ((create_project_folder root date mkdirErr fs).1.folder_path.getD "")
          title kws (create_project_folder root date mkdirErr fs).2).1.status = "error" →
      (create_project_with_readme root date mkdirErr writeErr openErr title kws fs).2.2.revealAttempted = false ∧
      (create_project_with_readme root date mkdirErr writeErr openErr title kws fs).1.status = "partial") ∧
    (∀ e : String,
      (create_project_with_readme root date mkdirErr writeErr (some e) title kws fs).1.status =
        (create_project_with_readme root date mkdirErr writeErr none title kws fs).1.status ∧
      (create_project_with_readme root date mkdirErr writeErr (some e) title kws fs).1.folder_path =
        (create_project_with_readme root date mkdirErr writeErr none title kws fs).1.folder_path ∧
      (create_project_with_readme root date mkdirErr writeErr (some e) title kws fs).1.readme_path =
        (create_project_with_readme root date mkdirErr writeErr none title kws fs).1.readme_path ∧
      (create_project_with_readme root date mkdirErr writeErr (some e) title kws fs).2.1 =
        (create_project_with_readme root date mkdirErr writeErr none title kws fs).2.1 ∧
      ((create_readme_file writeErr
          ((create_project_folder root date mkdirErr fs).1.folder_path.getD "")
          title kws (create_project_folder root date mkdirErr fs).2).1.status ≠ "error" →
        (create_project_with_readme root date mkdirErr writeErr (some e) title kws fs).1.open_status = some "not_opened" ∧
        (create_project_with_readme root date mkdirErr writeErr none title kws fs).1.open_status = some "opened")) := by
  refine ⟨fun openErr hrr => ?_, fun openErr hrr => ?_, fun e => ?_⟩
  · simp only [create_project_with_readme, if_neg htitle, if_neg hfolder, if_neg hrr]
  · simp only [create_project_with_readme, if_neg htitle, if_neg hfolder, if_pos hrr]
    exact ⟨trivial, trivial⟩
  · by_cases hrr : (create_readme_file writeErr
        ((create_project_folder root date mkdirErr fs).1.folder_path.getD "")
        title kws (create_project_folder root date mkdirErr fs).2).1.status = "error"
    · simp only [create_project_with_readme, if_neg htitle, if_neg hfolder, if_pos hrr]
      exact ⟨trivial, trivial, trivial, trivial, fun hne => absurd hrr hne⟩
    · simp only [create_project_with_readme, if_neg htitle, if_neg hfolder, if_neg hrr]
      exact ⟨trivial, trivial, trivial, trivial, fun _ => ⟨trivial, trivial⟩⟩

/-- Witness for the amended C5: root `"r"` present, nothing created yet,
title `"T"`, keywords `["ml"]`. -/
theorem C5_reveal_best_effort_amended_witness :
    (∀ openErr : Option String,
      (create_readme_file none
          ((create_project_folder (some "r") "20250101" none ⟨["r"], []⟩).1.folder_path.getD "")
          "T" ["ml"] (create_project_folder (some "r") "20250101" none ⟨["r"], []⟩).2).1.status ≠ "error" →
      (create_project_with_readme (some "r") "20250101" none none openErr "T" ["ml"] ⟨["r"], []⟩).2.2.revealAttempted = true) ∧
    (∀ openErr : Option String,
      (create_readme_file none
          ((create_project_folder (some "r") "20250101" none ⟨["r"], []⟩).1.folder_path.getD "")
          "T" ["ml"] (create_project_folder (some "r") "20250101" none ⟨["r"], []⟩).2).1.status = "error" →
      (create_project_with_readme (some "r") "20250101" none none openErr "T" ["ml"] ⟨["r"], []⟩).2.2.revealAttempted = false ∧
      (create_project_with_readme (some "r") "20250101" none none openErr "T" ["ml"] ⟨["r"], []⟩).1.status = "partial") ∧
    (∀ e : String,
      (create_project_with_readme (some "r") "20250101" none none (some e) "T" ["ml"] ⟨["r"], []⟩).1.status =
        (create_project_with_readme (some "r") "20250101" none none none "T" ["ml"] ⟨["r"], []⟩).1.status ∧
      (create_project_with_readme (some "r") "20250101" none none (some e) "T" ["ml"] ⟨["r"], []⟩).1.folder_path =
        (create_project_with_readme (some "r") "20250101" none none none "T" ["ml"] ⟨["r"], []⟩).1.folder_path ∧
      (create_project_with_readme (some "r") "20250101" none none (some e) "T" ["ml"] ⟨["r"], []⟩).1.readme_path =
        (create_project_with_readme (some "r") "20250101" none none none "T" ["ml"] ⟨["r"], []⟩).1.readme_path ∧
      (create_project_with_readme (some "r") "20250101" none none (some e) "T" ["ml"] ⟨["r"], []⟩).2.1 =
        (create_project_with_readme (some "r") "20250101" none none none "T" ["ml"] ⟨["r"], []⟩).2.1 ∧
      ((create_readme_file none
          ((create_project_folder (some "r") "20250101" none ⟨["r"], []⟩).1.folder_path.getD "")
          "T" ["ml"] (create_project_folder (some "r") "20250101" none ⟨["r"], []⟩).2).1.status ≠ "error" →
        (create_project_with_readme (some "r") "20250101" none none (some e) "T" ["ml"] ⟨["r"], []⟩).1.open_status = some "not_opened" ∧
        (create_project_with_readme (some "r") "20250101" none none none "T" ["ml"] ⟨["r"], []⟩).1.open_status = some "opened")) :=
  C5_reveal_best_effort_amended (some "r") "20250101" none none "T" ["ml"]
    ⟨["r"], []⟩ (by decide) (by decide)

/-- C6: the folder path is the pure function `root/p<date>a` of the date,
and provisioning is idempotent per calendar day: after a `created` call, a
second call on the same date returns `exists` with the identical path and
performs no mutation. -/
theorem C6_folder_idempotent_per_day (root : Option String) (date : String)
    (e1 e2 : Option String) (fs : FS)
    (h : (create_project_folder root date e1 fs).1.status = "created") :
    (create_project_folder root date e1 fs).1.folder_path =
      some (pathJoin (root.getD "") ("p" ++ date ++ "a")) ∧
    (create_project_folder root date e2 (create_project_folder root date e1 fs).2).1.status = "exists" ∧
    (create_project_folder root date e2 (create_project_folder root date e1 fs).2).1.folder_path =
      (create_project_folder root date e1 fs).1.folder_path ∧
    (create_project_folder root date e2 (create_project_folder root date e1 fs).2).2 =
      (create_project_folder root date e1 fs).2 := by
  obtain ⟨h1, h2, h3, -, heq⟩ := create_project_folder_created root date e1 fs h
  have hx : pathExists
      { fs with dirs := pathJoin (root.getD "") ("p" ++ date ++ "a") :: fs.dirs }
      (pathJoin (root.getD "") ("p" ++ date ++ "a")) = true := by
    simp [pathExists]
  have hs := create_project_folder_exists_spec root date e2
    { fs with dirs := pathJoin (root.getD "") ("p" ++ date ++ "a") :: fs.dirs }
    h1 (pathExists_addDir fs _ _ h2) hx
  simp [heq, hs]

/-- Witness for C6: root `"r"` exists and the dated folder does not. -/
theorem C6_folder_idempotent_per_day_witness :
    (create_project_folder (some "r") "20250101" none ⟨["r"], []⟩).1.folder_path =
      some (pathJoin "r" ("p" ++ "20250101" ++ "a")) ∧
    (create_project_folder (some "r") "20250101" (some "boom")
        (create_project_folder (some "r") "20250101" none ⟨["r"], []⟩).2).1.status = "exists" ∧
    (create_project_folder (some "r") "20250101" (some "boom")
        (create_project_folder (some "r") "20250101" none ⟨["r"], []⟩).2).1.folder_path =
      (create_project_folder (some "r") "20250101" none ⟨["r"], []⟩).1.folder_path ∧
    (create_project_folder (some "r") "20250101" (some "boom")
        (create_project_folder (some "r") "20250101" none ⟨["r"], []⟩).2).2 =
      (create_project_folder (some "r") "20250101" none ⟨["r"], []⟩).2 :=
  C6_folder_idempotent_per_day (some "r") "20250101" none (some "boom")
    ⟨["r"], []⟩ (by decide)

/-- C7: for an existing directory already containing `README.md`, the
templater returns `exists` without touching the file system; and after a
successful write, a second call — even with a different title and
keywords and a failing write oracle — returns `exists` and changes
nothing. -/
theorem C7_readme_never_overwritten (writeErr writeErr2 : Option String)
    (fpA tA fp t1 t2 : String) (kA k1 k2 : List String) (fsA fs : FS)
    (hA1 : fpA ≠ "") (hA2 : isDir fsA fpA = true)
    (hA3 : pathExists fsA (pathJoin fpA "README.md") = true)
    (hB : (create_readme_file none fp t1 k1 fs).1.status = "created") :
    ((create_readme_file writeErr fpA tA kA fsA).1.status = "exists" ∧
      (create_readme_file writeErr fpA tA kA fsA).2 = fsA) ∧
    ((create_readme_file writeErr2 fp t2 k2 (create_readme_file none fp t1 k1 fs).2).1.status = "exists" ∧
      (create_readme_file writeErr2 fp t2 k2 (create_readme_file none fp t1 k1 fs).2).2 =
        (create_readme_file none fp t1 k1 fs).2) := by
  constructor
  · rw [create_readme_file_exists_spec writeErr fpA tA kA fsA hA1
      (pathExists_of_isDir fsA fpA hA2) hA2 hA3]
    exact ⟨rfl, rfl⟩
  · obtain ⟨h1, h2, h3, h4, -, heq⟩ := create_readme_file_created none fp t1 k1 fs hB
    have hx : pathExists
        { fs with files := (pathJoin fp "README.md", readmeContent t1 k1) :: fs.files }
        (pathJoin fp "README.md") = true := by
      simp [pathExists]
    have hd : isDir
        { fs with files := (pathJoin fp "README.md", readmeContent t1 k1) :: fs.files }
        fp = true := h3
    have hs := create_readme_file_exists_spec writeErr2 fp t2 k2
      { fs with files := (pathJoin fp "README.md", readmeContent t1 k1) :: fs.files }
      h1 (pathExists_addFile fs _ _ h2) hd hx
    simp [heq, hs]

/-- Witness for C7: directory `"d"` with an existing `README.md` for the
first part; directory `"e"` with none for the second. -/
theorem C7_readme_never_overwritten_witness :
    ((create_readme_file (some "boom") "d" "TA" ["ka"]
        ⟨["d", "e"], [("d/README.md", "c")]⟩).1.status = "exists" ∧
      (create_readme_file (some "boom") "d" "TA" ["ka"]
        ⟨["d", "e"], [("d/README.md", "c")]⟩).2 = ⟨["d", "e"], [("d/README.md", "c")]⟩) ∧
    ((create_readme_file (some "boom2") "e" "T2" ["k2"]
        (create_readme_file none "e" "T1" ["k1"] ⟨["d", "e"], [("d/README.md", "c")]⟩).2).1.status = "exists" ∧
      (create_readme_file (some "boom2") "e" "T2" ["k2"]
        (create_readme_file none "e" "T1" ["k1"] ⟨["d", "e"], [("d/README.md", "c")]⟩).2).2 =
        (create_readme_file none "e" "T1" ["k1"] ⟨["d", "e"], [("d/README.md", "c")]⟩).2) :=
  C7_readme_never_overwritten (some "boom") (some "boom2") "d" "TA" "e" "T1" "T2"
    ["ka"] ["k1"] ["k2"] ⟨["d", "e"], [("d/README.md", "c")]⟩
    ⟨["d", "e"], [("d/README.md", "c")]⟩
    (by decide) (by decide) (by decide) (by decide)

/-- C8: a freshly written README has exactly the content
`"# " ++ title ++ "\n\n> **Keywords**: " ++ keywords rendered as
`#<kw>` joined by single spaces (empty for no keywords) ++ "\n\n"`,
for every title and keyword list. -/
theorem C8_readme_template_exact (fp title : String) (kws : List String)
    (fs : FS)
    (h : (create_readme_file none fp title kws fs).1.status = "created") :
    (create_readme_file none fp title kws fs).2.files =
      (pathJoin fp "README.md",
        "# " ++ title ++ "\n\n> **Keywords**: " ++
          String.intercalate " " (kws.map (fun kw => "#" ++ kw)) ++ "\n\n") ::
        fs.files := by
  obtain ⟨-, -, -, -, -, heq⟩ := create_readme_file_created none fp title kws fs h
  rw [heq]
  cases kws with
  | nil => rfl
  | cons a l => rfl

/-- Witness for C8 with the spec's scenario title and keywords. -/
theorem C8_readme_template_exact_witness :
    (create_readme_file none "r/p20250621a" "My Idea" ["ml"]
        ⟨["r", "r/p20250621a"], []⟩).2.files =
      (pathJoin "r/p20250621a" "README.md",
        "# " ++ "My Idea" ++ "\n\n> **Keywords**: " ++
          String.intercalate " " (["ml"].map (fun kw => "#" ++ kw)) ++ "\n\n") ::
        (⟨["r", "r/p20250621a"], []⟩ : FS).files :=
  C8_readme_template_exact "r/p20250621a" "My Idea" ["ml"]
    ⟨["r", "r/p20250621a"], []⟩ (by decide)

end Projector

